import Mathlib

/-!
Verification development for the movie-platform backend (Express + Mongoose).

The controllers are embedded shallowly: each Mongo collection becomes a Lean
list of records, each request handler becomes a pure function from the current
store (plus the authenticated identity and the request fields) to an HTTP-level
result together with the updated store.  Wall-clock time is passed explicitly
as a natural number of milliseconds (the code reads `Date.now()`), and the
external bcrypt primitives are passed as explicit function parameters
(`hash` for `bcrypt.hash(·, 10)` and `compare` for `bcrypt.compare`).
-/

/-- Updates the first element of a list satisfying the predicate, mirroring the
Mongoose pattern of `findOne`/`findById` followed by mutating and saving the
single found document. -/
def updateFirst {α : Type} (l : List α) (p : α → Bool) (f : α → α) : List α :=
  match l with
  | [] => []
  | a :: rest => if p a then f a :: rest else a :: updateFirst rest p f

/-- Removes the first element of a list satisfying the predicate, mirroring
`deleteOne` / `findByIdAndDelete` on the single found document. -/
def removeFirst {α : Type} (l : List α) (p : α → Bool) : List α :=
  match l with
  | [] => []
  | a :: rest => if p a then rest else a :: removeFirst rest p

/-- User document (collection `User`): identity, profile fields, stored bcrypt
hash, and the nullable reset-token pair used by the password-reset flow. -/
structure UserRec where
  id : Nat
  firstName : String
  lastName : String
  age : Nat
  email : String
  password : String
  resetPasswordToken : Option String
  resetPasswordExpires : Option Nat
deriving DecidableEq, Repr

/-- One entry of the in-memory `loginAttempts` map of the auth controller:
a failure count and a nullable lockout expiry (ms since epoch). -/
structure AttemptRec where
  count : Nat
  lockedUntil : Option Nat
deriving DecidableEq, Repr

/-- State touched by the auth controller: the user collection and the
in-process `loginAttempts` map (total function; an email absent from the JS
object behaves exactly like an entry `{count: 0, lockedUntil: null}`, which is
what the code lazily inserts). -/
structure AuthState where
  users : List UserRec
  loginAttempts : String → AttemptRec

/-- Looks up a user by email, as `User.findOne({ email })`. -/
def findUserByEmail (users : List UserRec) (email : String) : Option UserRec :=
  users.find? (fun u => u.email == email)

/-- Outcome of the `login` handler. -/
inductive LoginResult where
  | badRequest
  | invalidCredentials
  | locked
  | success (userId : Nat)
deriving DecidableEq, Repr

/-- Observable HTTP response of `login`: status code, message string and the
optional `userId` field of the JSON body, exactly as the handler sends them. -/
def loginResponse : LoginResult → Nat × String × Option Nat
  | .badRequest => (400, "Email y contraseña son requeridos", none)
  | .invalidCredentials => (401, "Credenciales inválidas", none)
  | .locked => (423, "Demasiados intentos fallidos. Intenta nuevamente más tarde.", none)
  | .success userId => (200, "Login exitoso", some userId)

/-- Lockout duration set by `login`: 15 * 60 * 1000 ms. -/
def lockoutMs : Nat := 15 * 60 * 1000

/-- Tests `att.lockedUntil && att.lockedUntil > now`. -/
def isLockedAt (att : AttemptRec) (now : Nat) : Bool :=
  match att.lockedUntil with
  | some t => decide (now < t)
  | none => false

/-- Embeds the `login` handler of the auth controller: missing fields give 400;
an unknown email gives 401; a locked entry whose expiry has not passed gives
423 without touching the counter; a failed bcrypt comparison increments the
counter and installs a 15-minute lockout once it reaches 5; a successful
comparison resets the counter to zero and issues the session token. -/
def login (compare : String → String → Bool) (now : Nat) (st : AuthState)
    (email password : String) : LoginResult × AuthState :=
  if email == "" || password == "" then
    (.badRequest, st)
  else
    match findUserByEmail st.users email with
    | none => (.invalidCredentials, st)
    | some user =>
      if isLockedAt (st.loginAttempts email) now then
        (.locked, st)
      else if compare password user.password then
        (.success user.id,
          { st with loginAttempts := (Function.update st.loginAttempts email
              { st.loginAttempts email with count := 0 }) })
      else
        (.invalidCredentials,
          { st with loginAttempts := (Function.update st.loginAttempts email
              ⟨(st.loginAttempts email).count + 1,
               if 5 ≤ (st.loginAttempts email).count + 1 then some (now + lockoutMs)
               else (st.loginAttempts email).lockedUntil⟩) })

/-- Embeds `forgotPassword`: 404 when the email is unknown, otherwise stores
the freshly generated token (passed in as `resetToken`, standing for
`crypto.randomBytes(32).toString("hex")`) with expiry `now + 3600000` on the
found user and reports success. -/
def forgotPassword (resetToken : String) (now : Nat) (st : AuthState)
    (email : String) : (Nat × String) × AuthState :=
  match findUserByEmail st.users email with
  | none => ((404, "Usuario no encontrado"), st)
  | some _ =>
    ((200, "Correo de recuperación enviado"),
      { st with users := (updateFirst st.users (fun u => u.email == email)
          (fun u => { u with resetPasswordToken := some resetToken,
                             resetPasswordExpires := some (now + 3600000) })) })

/-- Mongo query predicate of `resetPassword`:
`{ resetPasswordToken: token, resetPasswordExpires: { $gt: Date.now() } }`. -/
def resetTokenMatches (token : String) (now : Nat) (u : UserRec) : Bool :=
  u.resetPasswordToken == some token &&
    (match u.resetPasswordExpires with
     | some e => decide (now < e)
     | none => false)

/-- Embeds `resetPassword`: looks up a user whose stored token matches and has
not expired; 400 otherwise; on success stores the bcrypt hash of the new
password and clears both reset fields.  No complexity rule is applied to the
new password. -/
def resetPassword (hash : String → String) (now : Nat) (st : AuthState)
    (token password : String) : (Nat × String) × AuthState :=
  match st.users.find? (resetTokenMatches token now) with
  | none => ((400, "Token inválido o expirado"), st)
  | some _ =>
    ((200, "Contraseña actualizada correctamente"),
      { st with users := (updateFirst st.users (resetTokenMatches token now)
          (fun u => { u with password := hash password,
                             resetPasswordToken := none,
                             resetPasswordExpires := none })) })

/-- Embeds `changePassword`: finds the acting user by id, verifies the current
password with bcrypt, then stores the hash of the new password.  No complexity
rule is applied to the new password. -/
def changePassword (compare : String → String → Bool) (hash : String → String)
    (st : AuthState) (actingUserId : Nat) (currentPassword newPassword : String) :
    (Nat × String) × AuthState :=
  match st.users.find? (fun u => u.id == actingUserId) with
  | none => ((404, "Usuario no encontrado"), st)
  | some user =>
    if compare currentPassword user.password then
      ((200, "Contraseña cambiada exitosamente"),
        { st with users := (updateFirst st.users (fun u => u.id == actingUserId)
            (fun u => { u with password := hash newPassword })) })
    else
      ((401, "Contraseña actual incorrecta"), st)

/-- The signup password rule `/^(?=.*[a-z])(?=.*[A-Z])(?=.*[\W_]).{8,}$/`:
length at least 8, at least one lowercase letter, one uppercase letter and one
character that is not alphanumeric (the class `[\W_]` is exactly the
non-alphanumeric characters, underscore included). -/
def passwordRegexTest (p : String) : Bool :=
  8 ≤ p.length && p.any (fun c => c.isLower) && p.any (fun c => c.isUpper)
    && p.any (fun c => !c.isAlphanum)

/-- Embeds `signup`: field presence check, password complexity check, duplicate
email check, then stores the user with the bcrypt hash of the password.
`newId` stands for the Mongo-generated `_id` of the new document. -/
def signup (hash : String → String) (st : AuthState) (newId : Nat)
    (firstName lastName : String) (age : Nat) (email password : String) :
    (Nat × String) × AuthState :=
  if firstName == "" || lastName == "" || age == 0 || email == "" || password == "" then
    ((400, "Todos los campos son requeridos"), st)
  else if !passwordRegexTest password then
    ((400, "La contraseña debe tener al menos 8 caracteres, incluir una letra mayúscula, una minúscula y un caracter especial"), st)
  else
    match findUserByEmail st.users email with
    | some _ => ((409, "Este correo electrónico ya se encuentra registrado"), st)
    | none =>
      ((201, "Usuario registrado exitosamente"),
        { st with users := st.users ++
            [{ id := newId, firstName := firstName, lastName := lastName,
               age := age, email := email, password := hash password,
               resetPasswordToken := none, resetPasswordExpires := none }] })

/-- Rating document: owning user, referenced external movie id, and the value.
The value is a JavaScript number, embedded as a rational. -/
structure RatingRec where
  userId : Nat
  moviePexelsId : String
  value : ℚ
deriving DecidableEq, Repr

/-- Outcome of `createOrUpdateRating`. -/
inductive RatingResult where
  | missingFields
  | outOfRange
  | updated
  | created
deriving DecidableEq, Repr

/-- HTTP status sent for each `createOrUpdateRating` outcome. -/
def ratingStatus : RatingResult → Nat
  | .missingFields => 400
  | .outOfRange => 400
  | .updated => 200
  | .created => 201

/-- Mongo query predicate `{ userId, moviePexelsId }` on ratings. -/
def ratingKey (userId : Nat) (moviePexelsId : String) (r : RatingRec) : Bool :=
  r.userId == userId && r.moviePexelsId == moviePexelsId

/-- Embeds `createOrUpdateRating`: the falsy-field check (`!value` is true
exactly for the number 0), the range check `value < 1 || value > 5` — the
source checks no integrality — then find-and-save on an existing rating of the
(user, movie) pair, or creation of a new rating document. -/
def createOrUpdateRating (userId : Nat) (value : ℚ) (moviePexelsId : String)
    (store : List RatingRec) : RatingResult × List RatingRec :=
  if value == 0 || moviePexelsId == "" then (.missingFields, store)
  else if value < 1 || 5 < value then (.outOfRange, store)
  else
    match store.find? (ratingKey userId moviePexelsId) with
    | some _ =>
      (.updated, updateFirst store (ratingKey userId moviePexelsId)
        (fun r => { r with value := value }))
    | none =>
      (.created, store ++ [{ userId := userId, moviePexelsId := moviePexelsId, value := value }])

/-- Embeds `getAverageRatingByMovie` (the variant that also reports the caller's
own rating): the aggregation pipeline groups the ratings of the movie and
returns their average and count, `(0, 0, 0)` when the movie has none, and the
caller's own value (or 0) found by `Rating.findOne({ userId, moviePexelsId })`. -/
def getAverageRatingByMovie (userId : Nat) (moviePexelsId : String)
    (store : List RatingRec) : ℚ × Nat × ℚ :=
  let forMovie := store.filter (fun r => r.moviePexelsId == moviePexelsId)
  if forMovie.isEmpty then (0, 0, 0)
  else
    ((forMovie.map (fun r => r.value)).sum / (forMovie.length : ℚ),
     forMovie.length,
     ((store.find? (ratingKey userId moviePexelsId)).map (fun r => r.value)).getD 0)

/-- Comment document: Mongo id, owning user, referenced external movie id and
free-text body. -/
structure CommentRec where
  id : Nat
  userId : Nat
  moviePexelsId : String
  description : String
deriving DecidableEq, Repr

/-- Outcome of the comment mutation handlers. -/
inductive CommentResult where
  | notFound
  | forbidden
  | deletedOk
  | updatedOk
deriving DecidableEq, Repr

/-- HTTP status sent for each comment-mutation outcome. -/
def commentStatus : CommentResult → Nat
  | .notFound => 404
  | .forbidden => 403
  | .deletedOk => 200
  | .updatedOk => 200

/-- Embeds `deleteComment`: `findById`, 404 when absent, 403 when the acting
identity is not the stored owner, otherwise `deleteOne` on the found comment. -/
def deleteComment (actingUserId : Nat) (commentId : Nat)
    (store : List CommentRec) : CommentResult × List CommentRec :=
  match store.find? (fun c => c.id == commentId) with
  | none => (.notFound, store)
  | some c =>
    if c.userId != actingUserId then (.forbidden, store)
    else (.deletedOk, removeFirst store (fun d => d.id == commentId))

/-- Embeds `updateComment`: `findById`, 404 when absent, 403 when the acting
identity is not the stored owner, otherwise overwrite the description and save
the found comment. -/
def updateComment (actingUserId : Nat) (commentId : Nat) (description : String)
    (store : List CommentRec) : CommentResult × List CommentRec :=
  match store.find? (fun c => c.id == commentId) with
  | none => (.notFound, store)
  | some c =>
    if c.userId != actingUserId then (.forbidden, store)
    else (.updatedOk, updateFirst store (fun d => d.id == commentId)
      (fun d => { d with description := description }))

/-- Movie catalog document: Mongo id, pexels data and the owning user. -/
structure MovieRec where
  id : Nat
  pexelsId : String
  title : String
  videoUrl : String
  miniatureUrl : String
  userId : Nat
deriving DecidableEq, Repr

/-- Outcome of `deleteMovie`. -/
inductive MovieResult where
  | notFound
  | deletedOk
deriving DecidableEq, Repr

/-- HTTP status sent for each `deleteMovie` outcome: 204 on deletion. -/
def movieStatus : MovieResult → Nat
  | .notFound => 404
  | .deletedOk => 204

/-- Embeds `deleteMovie`: the route runs behind the auth middleware, so an
authenticated identity is available, but the handler performs
`Movie.findByIdAndDelete(req.params.id)` keyed only on the path id and never
reads `req.user`; the identity parameter is accordingly unused. -/
def deleteMovie (_actingUserId : Nat) (movieId : Nat)
    (store : List MovieRec) : MovieResult × List MovieRec :=
  match store.find? (fun m => m.id == movieId) with
  | none => (.notFound, store)
  | some _ => (.deletedOk, removeFirst store (fun m => m.id == movieId))

/-- Whole persisted state of the application: the four Mongo collections. -/
structure AppState where
  users : List UserRec
  comments : List CommentRec
  ratings : List RatingRec
  movies : List MovieRec

/-- Embeds `deleteProfile` over the whole application state: requires the
resubmitted password, 404 when the acting user is unknown, 401 when bcrypt
rejects the password, otherwise `User.findByIdAndDelete(req.user.userId)`.
The handler touches no collection other than `User`. -/
def deleteProfile (compare : String → String → Bool) (app : AppState)
    (actingUserId : Nat) (password : String) : (Nat × String) × AppState :=
  if password == "" then
    ((400, "Debes confirmar tu contraseña para eliminar la cuenta"), app)
  else
    match app.users.find? (fun u => u.id == actingUserId) with
    | none => ((404, "Usuario no encontrado"), app)
    | some user =>
      if compare password user.password then
        ((200, "Perfil eliminado y sesión cerrada"),
          { app with users := removeFirst app.users (fun u => u.id == actingUserId) })
      else
        ((401, "Contraseña incorrecta"), app)

/-- A JavaScript number is an integer exactly when its rational embedding has
denominator 1. -/
def isIntegerValue (q : ℚ) : Bool :=
  q.den == 1

/-- The concrete rational 5/2, built without division so that the kernel can
evaluate terms containing it. -/
def twoPointFive : ℚ := ⟨5, 2, by decide, by decide⟩

/-- A sequence of login requests for one email, each given as (time of the
attempt, submitted password); the state threads through the calls. -/
def loginSeq (compare : String → String → Bool) (email : String)
    (attempts : List (Nat × String)) (st : AuthState) : AuthState :=
  attempts.foldl (fun s tp => (login compare tp.1 s email tp.2).2) st

/-- A sequence of sequential `createOrUpdateRating` calls by one user for one
movie, given as the list of submitted values. -/
def ratingSeq (userId : Nat) (moviePexelsId : String) (vals : List ℚ)
    (store : List RatingRec) : List RatingRec :=
  vals.foldl (fun s v => (createOrUpdateRating userId v moviePexelsId s).2) store

/-! ### List machinery for findOne / save / deleteOne reasoning -/

theorem find?_eq_some_split {α : Type} {l : List α} {p : α → Bool} {a : α}
    (h : l.find? p = some a) :
    ∃ l₁ l₂, l = l₁ ++ a :: l₂ ∧ (∀ x ∈ l₁, p x = false) ∧ p a = true := by
  induction l with
  | nil => simp [List.find?] at h
  | cons b rest ih =>
    by_cases hb : p b = true
    · rw [List.find?_cons_of_pos _ hb] at h
      cases h
      exact ⟨[], rest, rfl, by simp, hb⟩
    · rw [List.find?_cons_of_neg _ (by simpa using hb)] at h
      obtain ⟨l₁, l₂, hsplit, hpre, hpa⟩ := ih h
      exact ⟨b :: l₁, l₂, by simp [hsplit], by
        intro x hx
        rcases List.mem_cons.mp hx with hx | hx
        · subst hx; simpa using hb
        · exact hpre x hx, hpa⟩

theorem updateFirst_append {α : Type} (l₁ l₂ : List α) (a : α) (p : α → Bool) (f : α → α)
    (h₁ : ∀ x ∈ l₁, p x = false) (ha : p a = true) :
    updateFirst (l₁ ++ a :: l₂) p f = l₁ ++ f a :: l₂ := by
  induction l₁ with
  | nil => simp [updateFirst, ha]
  | cons b rest ih =>
    have hb : p b = false := h₁ b (by simp)
    simp only [List.cons_append, updateFirst, hb, Bool.false_eq_true, if_false]
    exact congrArg (fun t => b :: t) (ih (fun x hx => h₁ x (List.mem_cons_of_mem _ hx)))

theorem removeFirst_append {α : Type} (l₁ l₂ : List α) (a : α) (p : α → Bool)
    (h₁ : ∀ x ∈ l₁, p x = false) (ha : p a = true) :
    removeFirst (l₁ ++ a :: l₂) p = l₁ ++ l₂ := by
  induction l₁ with
  | nil => simp [removeFirst, ha]
  | cons b rest ih =>
    have hb : p b = false := h₁ b (by simp)
    simp only [List.cons_append, removeFirst, hb, Bool.false_eq_true, if_false]
    exact congrArg (fun t => b :: t) (ih (fun x hx => h₁ x (List.mem_cons_of_mem _ hx)))

theorem find?_append_of_forall_false {α : Type} {l₁ : List α} (l₂ : List α) {p : α → Bool}
    (h₁ : ∀ x ∈ l₁, p x = false) :
    (l₁ ++ l₂).find? p = l₂.find? p := by
  induction l₁ with
  | nil => simp
  | cons b rest ih =>
    have hb : p b = false := h₁ b (by simp)
    simp only [List.cons_append]
    rw [List.find?_cons_of_neg _ (by simp [hb])]
    exact ih (fun x hx => h₁ x (List.mem_cons_of_mem _ hx))

/-! ### Login and lockout lemmas -/

theorem login_fail_step (compare : String → String → Bool) (now : Nat) (st : AuthState)
    (email password : String) (u : UserRec) (c : Nat)
    (he : (email == "") = false) (hp : (password == "") = false)
    (hu : findUserByEmail st.users email = some u)
    (hcmp : compare password u.password = false)
    (hatt : st.loginAttempts email = ⟨c, none⟩) :
    login compare now st email password =
      (LoginResult.invalidCredentials,
        { st with loginAttempts := (Function.update st.loginAttempts email
            ⟨c + 1, if 5 ≤ c + 1 then some (now + lockoutMs) else none⟩) }) := by
  simp [login, he, hp, hu, hatt, isLockedAt, hcmp]

theorem login_locked_step (compare : String → String → Bool) (now : Nat) (st : AuthState)
    (email password : String) (u : UserRec) (c T : Nat)
    (he : (email == "") = false) (hp : (password == "") = false)
    (hu : findUserByEmail st.users email = some u)
    (hatt : st.loginAttempts email = ⟨c, some T⟩) (hnow : now < T) :
    login compare now st email password = (LoginResult.locked, st) := by
  simp [login, he, hp, hu, hatt, isLockedAt, hnow]

theorem login_users_eq (compare : String → String → Bool) (now : Nat) (st : AuthState)
    (email password : String) :
    (login compare now st email password).2.users = st.users := by
  unfold login
  split
  · rfl
  · split
    · rfl
    · split
      · rfl
      · split <;> rfl

theorem loginSeq_users_eq (compare : String → String → Bool) (email : String)
    (attempts : List (Nat × String)) (st : AuthState) :
    (loginSeq compare email attempts st).users = st.users := by
  induction attempts generalizing st with
  | nil => rfl
  | cons tp rest ih =>
    rw [loginSeq, List.foldl_cons]
    exact (ih _).trans (login_users_eq compare tp.1 st email tp.2)

theorem loginSeq_wrong_count (compare : String → String → Bool) (email : String)
    (u : UserRec) (he : (email == "") = false)
    (attempts : List (Nat × String)) (st : AuthState) (c : Nat)
    (hu : findUserByEmail st.users email = some u)
    (hatt : st.loginAttempts email = ⟨c, none⟩)
    (hwrong : ∀ tp ∈ attempts, (tp.2 == "") = false ∧ compare tp.2 u.password = false)
    (hbound : c + attempts.length ≤ 5) (hne : attempts ≠ []) :
    (loginSeq compare email attempts st).loginAttempts email =
      ⟨c + attempts.length,
       if c + attempts.length = 5 then some ((attempts.getLast hne).1 + lockoutMs)
       else none⟩ := by
  induction attempts generalizing st c with
  | nil => exact absurd rfl hne
  | cons tp rest ih =>
    have hstep := login_fail_step compare tp.1 st email tp.2 u c he
      (hwrong tp (by simp)).1 hu (hwrong tp (by simp)).2 hatt
    have hfold : loginSeq compare email (tp :: rest) st =
        loginSeq compare email rest (login compare tp.1 st email tp.2).2 := rfl
    rw [hfold, hstep]
    rcases rest with _ | ⟨tp2, rest2⟩
    · have h1 : c + [tp].length = c + 1 := rfl
      simp only [loginSeq, List.foldl_nil, Function.update_same, List.length_cons,
        List.length_nil, List.getLast_singleton]
      by_cases h5 : c + 1 = 5
      · have : 5 ≤ c + 1 := by omega
        simp [h5, this]
      · have : ¬ 5 ≤ c + 1 := by
          simp only [List.length_cons, List.length_nil] at hbound
          omega
        simp [h5, this]
    · have hrest : ¬ 5 ≤ c + 1 := by
        simp only [List.length_cons] at hbound
        omega
      have hatt' : ({ st with loginAttempts := (Function.update st.loginAttempts email
          ⟨c + 1, if 5 ≤ c + 1 then some (tp.1 + lockoutMs) else none⟩) } :
            AuthState).loginAttempts email = ⟨c + 1, none⟩ := by
        simp [Function.update_same, hrest]
      have hu' : findUserByEmail ({ st with loginAttempts := (Function.update st.loginAttempts email
          ⟨c + 1, if 5 ≤ c + 1 then some (tp.1 + lockoutMs) else none⟩) } : AuthState).users email
          = some u := hu
      have hb' : (c + 1) + (tp2 :: rest2).length ≤ 5 := by
        simp only [List.length_cons] at hbound ⊢
        omega
      have := ih _ (c + 1) hu' hatt'
        (fun x hx => hwrong x (List.mem_cons_of_mem _ hx)) hb' (by simp)
      rw [this]
      have hlast : ((tp :: tp2 :: rest2).getLast hne) = ((tp2 :: rest2).getLast (by simp)) :=
        List.getLast_cons _
      have hlen : c + (tp :: tp2 :: rest2).length = (c + 1) + (tp2 :: rest2).length := by
        simp only [List.length_cons]
        omega
      rw [hlast, hlen]

/-- C1: for every email, five consecutive failed login attempts (wrong
passwords, starting from a zero failure count) put that email into the locked
state with lockout expiry equal to the time of the fifth failure plus 15
minutes, and any login attempt made while that expiry has not yet elapsed is
rejected with the 423 LockedError response and leaves the state — in
particular the failure counter — untouched, regardless of whether the
submitted password is correct. -/
theorem login_lockout_after_five_failures
    (compare : String → String → Bool) (st : AuthState) (email p : String) (u : UserRec)
    (attempts : List (Nat × String)) (now : Nat)
    (he : (email == "") = false) (hp : (p == "") = false)
    (hu : findUserByEmail st.users email = some u)
    (hatt : st.loginAttempts email = ⟨0, none⟩)
    (hwrong : ∀ tp ∈ attempts, (tp.2 == "") = false ∧ compare tp.2 u.password = false)
    (hlen : attempts.length = 5) (hne : attempts ≠ [])
    (hnow : now < (attempts.getLast hne).1 + lockoutMs) :
    (loginSeq compare email attempts st).loginAttempts email
        = ⟨5, some ((attempts.getLast hne).1 + lockoutMs)⟩ ∧
    login compare now (loginSeq compare email attempts st) email p
        = (LoginResult.locked, loginSeq compare email attempts st) ∧
    loginResponse (login compare now (loginSeq compare email attempts st) email p).1
        = (423, "Demasiados intentos fallidos. Intenta nuevamente más tarde.", none) := by
  have hcount := loginSeq_wrong_count compare email u he attempts st 0 hu hatt hwrong
    (by omega) hne
  rw [hlen] at hcount
  simp only [Nat.zero_add, if_pos rfl] at hcount
  have husers : findUserByEmail (loginSeq compare email attempts st).users email = some u := by
    rw [loginSeq_users_eq]; exact hu
  have hlocked := login_locked_step compare now (loginSeq compare email attempts st)
    email p u 5 ((attempts.getLast hne).1 + lockoutMs) he hp husers hcount hnow
  exact ⟨hcount, hlocked, by rw [hlocked]; rfl⟩


/-- Witness for C1 at a concrete store: the user's real password is
"Correct#1", the five failures happen at times 10..50, and the locked attempt
at time 1000 even submits the correct password. -/
theorem login_lockout_after_five_failures_witness :
    (loginSeq (fun raw stored => raw == stored) "ana@mail.com"
        [(10, "w1"), (20, "w2"), (30, "w3"), (40, "w4"), (50, "w5")]
        ⟨[⟨1, "Ana", "Diaz", 30, "ana@mail.com", "Correct#1", none, none⟩],
         fun _ => ⟨0, none⟩⟩).loginAttempts "ana@mail.com"
      = ⟨5, some (50 + lockoutMs)⟩ ∧
    login (fun raw stored => raw == stored) 1000
        (loginSeq (fun raw stored => raw == stored) "ana@mail.com"
          [(10, "w1"), (20, "w2"), (30, "w3"), (40, "w4"), (50, "w5")]
          ⟨[⟨1, "Ana", "Diaz", 30, "ana@mail.com", "Correct#1", none, none⟩],
           fun _ => ⟨0, none⟩⟩) "ana@mail.com" "Correct#1"
      = (LoginResult.locked,
         loginSeq (fun raw stored => raw == stored) "ana@mail.com"
          [(10, "w1"), (20, "w2"), (30, "w3"), (40, "w4"), (50, "w5")]
          ⟨[⟨1, "Ana", "Diaz", 30, "ana@mail.com", "Correct#1", none, none⟩],
           fun _ => ⟨0, none⟩⟩) ∧
    loginResponse (login (fun raw stored => raw == stored) 1000
        (loginSeq (fun raw stored => raw == stored) "ana@mail.com"
          [(10, "w1"), (20, "w2"), (30, "w3"), (40, "w4"), (50, "w5")]
          ⟨[⟨1, "Ana", "Diaz", 30, "ana@mail.com", "Correct#1", none, none⟩],
           fun _ => ⟨0, none⟩⟩) "ana@mail.com" "Correct#1").1
      = (423, "Demasiados intentos fallidos. Intenta nuevamente más tarde.", none) :=
  login_lockout_after_five_failures (fun raw stored => raw == stored)
    ⟨[⟨1, "Ana", "Diaz", 30, "ana@mail.com", "Correct#1", none, none⟩], fun _ => ⟨0, none⟩⟩
    "ana@mail.com" "Correct#1" ⟨1, "Ana", "Diaz", 30, "ana@mail.com", "Correct#1", none, none⟩
    [(10, "w1"), (20, "w2"), (30, "w3"), (40, "w4"), (50, "w5")] 1000
    (by decide) (by decide) (by decide) rfl (by decide) (by decide) (by decide) (by decide)

theorem login_unknown_email (compare : String → String → Bool) (now : Nat) (st : AuthState)
    (email password : String)
    (he : (email == "") = false) (hp : (password == "") = false)
    (hu : findUserByEmail st.users email = none) :
    login compare now st email password = (LoginResult.invalidCredentials, st) := by
  simp [login, he, hp, hu]

theorem login_wrong_password_fst (compare : String → String → Bool) (now : Nat)
    (st : AuthState) (email password : String) (u : UserRec)
    (he : (email == "") = false) (hp : (password == "") = false)
    (hu : findUserByEmail st.users email = some u)
    (hnl : isLockedAt (st.loginAttempts email) now = false)
    (hcmp : compare password u.password = false) :
    (login compare now st email password).1 = LoginResult.invalidCredentials := by
  simp [login, he, hp, hu, hnl, hcmp]

/-- C8: a login for an email matching no stored user yields the same
observable response — status 401, message "Credenciales inválidas", no userId
field — as a login for an existing, non-locked account with a wrong password;
the two runs are indistinguishable from the response. -/
theorem login_unknown_email_indistinguishable
    (compare : String → String → Bool) (now1 now2 : Nat) (st1 st2 : AuthState)
    (e1 p1 e2 p2 : String) (u : UserRec)
    (he1 : (e1 == "") = false) (hp1 : (p1 == "") = false)
    (he2 : (e2 == "") = false) (hp2 : (p2 == "") = false)
    (hunknown : findUserByEmail st1.users e1 = none)
    (hu : findUserByEmail st2.users e2 = some u)
    (hnl : isLockedAt (st2.loginAttempts e2) now2 = false)
    (hcmp : compare p2 u.password = false) :
    loginResponse (login compare now1 st1 e1 p1).1
      = loginResponse (login compare now2 st2 e2 p2).1 ∧
    loginResponse (login compare now1 st1 e1 p1).1
      = (401, "Credenciales inválidas", none) := by
  have h1 : (login compare now1 st1 e1 p1).1 = LoginResult.invalidCredentials := by
    rw [login_unknown_email compare now1 st1 e1 p1 he1 hp1 hunknown]
  have h2 := login_wrong_password_fst compare now2 st2 e2 p2 u he2 hp2 hu hnl hcmp
  rw [h1, h2]
  exact ⟨rfl, rfl⟩

/-- Witness for C8: an empty store versus a store holding the user, who is
given a wrong password; both runs answer 401 "Credenciales inválidas". -/
theorem login_unknown_email_indistinguishable_witness :
    loginResponse (login (fun raw stored => raw == stored) 7
        ⟨[], fun _ => ⟨0, none⟩⟩ "ghost@mail.com" "whatever").1
      = loginResponse (login (fun raw stored => raw == stored) 8
        ⟨[⟨1, "Ana", "Diaz", 30, "ana@mail.com", "Correct#1", none, none⟩],
         fun _ => ⟨0, none⟩⟩ "ana@mail.com" "bad").1 ∧
    loginResponse (login (fun raw stored => raw == stored) 7
        ⟨[], fun _ => ⟨0, none⟩⟩ "ghost@mail.com" "whatever").1
      = (401, "Credenciales inválidas", none) :=
  login_unknown_email_indistinguishable (fun raw stored => raw == stored) 7 8
    ⟨[], fun _ => ⟨0, none⟩⟩
    ⟨[⟨1, "Ana", "Diaz", 30, "ana@mail.com", "Correct#1", none, none⟩], fun _ => ⟨0, none⟩⟩
    "ghost@mail.com" "whatever" "ana@mail.com" "bad"
    ⟨1, "Ana", "Diaz", 30, "ana@mail.com", "Correct#1", none, none⟩
    (by decide) (by decide) (by decide) (by decide) rfl rfl rfl (by decide)

/-! ### Password-reset lemmas -/

theorem resetTokenMatches_false_of_ne (token : String) (now : Nat) (x : UserRec)
    (h : x.resetPasswordToken ≠ some token) : resetTokenMatches token now x = false := by
  have hb : (x.resetPasswordToken == some token) = false := beq_eq_false_iff_ne.mpr h
  simp [resetTokenMatches, hb]

theorem forgotPassword_found (resetToken : String) (now : Nat) (st : AuthState)
    (email : String) (u : UserRec) (hu : findUserByEmail st.users email = some u) :
    forgotPassword resetToken now st email =
      ((200, "Correo de recuperación enviado"),
       { st with users := (updateFirst st.users (fun v => v.email == email)
           (fun v => { v with resetPasswordToken := some resetToken,
                              resetPasswordExpires := some (now + 3600000) })) }) := by
  simp [forgotPassword, hu]

theorem resetPassword_not_found (hash : String → String) (now : Nat) (st : AuthState)
    (token password : String)
    (h : st.users.find? (resetTokenMatches token now) = none) :
    resetPassword hash now st token password = ((400, "Token inválido o expirado"), st) := by
  simp [resetPassword, h]

theorem resetPassword_found (hash : String → String) (now : Nat) (st : AuthState)
    (token password : String) (u : UserRec)
    (h : st.users.find? (resetTokenMatches token now) = some u) :
    resetPassword hash now st token password =
      ((200, "Contraseña actualizada correctamente"),
       { st with users := (updateFirst st.users (resetTokenMatches token now)
           (fun v => { v with password := hash password,
                              resetPasswordToken := none,
                              resetPasswordExpires := none })) }) := by
  simp [resetPassword, h]

/-- C2: a token issued by `forgotPassword` for a user (fresh: stored on no user
beforehand) lets `resetPassword` succeed within the 1-hour window, storing the
hash of the new password and clearing both reset fields, and a second
`resetPassword` with the same token fails with the 400 InvalidTokenError
response, leaving the state unchanged. -/
theorem resetPassword_roundtrip
    (hash : String → String) (st : AuthState) (email token p1 p2 : String) (u : UserRec)
    (tIssue tUse tReuse : Nat)
    (hu : findUserByEmail st.users email = some u)
    (hfresh : ∀ v ∈ st.users, v.resetPasswordToken ≠ some token)
    (hwin : tUse < tIssue + 3600000) :
    (resetPassword hash tUse (forgotPassword token tIssue st email).2 token p1).1
        = (200, "Contraseña actualizada correctamente") ∧
    (findUserByEmail
        (resetPassword hash tUse (forgotPassword token tIssue st email).2 token p1).2.users
        email).map (fun v => (v.password, v.resetPasswordToken, v.resetPasswordExpires))
        = some (hash p1, none, none) ∧
    resetPassword hash tReuse
        (resetPassword hash tUse (forgotPassword token tIssue st email).2 token p1).2 token p2
      = ((400, "Token inválido o expirado"),
         (resetPassword hash tUse (forgotPassword token tIssue st email).2 token p1).2) := by
  obtain ⟨l₁, l₂, hsplit, hpre, hpa⟩ := find?_eq_some_split hu
  have h1users : (forgotPassword token tIssue st email).2.users =
      l₁ ++ ({ u with resetPasswordToken := some token,
                      resetPasswordExpires := some (tIssue + 3600000) }) :: l₂ := by
    rw [forgotPassword_found token tIssue st email u hu]
    show updateFirst st.users _ _ = _
    rw [hsplit]
    exact updateFirst_append l₁ l₂ u _ _ hpre hpa
  have hqU : resetTokenMatches token tUse
      ({ u with resetPasswordToken := some token,
                resetPasswordExpires := some (tIssue + 3600000) }) = true := by
    simp [resetTokenMatches, hwin]
  have hq1 : ∀ x ∈ l₁, resetTokenMatches token tUse x = false := by
    intro x hx
    exact resetTokenMatches_false_of_ne token tUse x
      (hfresh x (by rw [hsplit]; exact List.mem_append_left _ hx))
  have hfind1 : (forgotPassword token tIssue st email).2.users.find?
      (resetTokenMatches token tUse) =
      some ({ u with resetPasswordToken := some token,
                     resetPasswordExpires := some (tIssue + 3600000) }) := by
    rw [h1users, find?_append_of_forall_false _ hq1, List.find?_cons_of_pos _ hqU]
  have hreset1 := resetPassword_found hash tUse (forgotPassword token tIssue st email).2
    token p1 _ hfind1
  have h2users : (resetPassword hash tUse (forgotPassword token tIssue st email).2
      token p1).2.users =
      l₁ ++ ({ u with password := hash p1, resetPasswordToken := none,
                      resetPasswordExpires := none }) :: l₂ := by
    rw [hreset1, h1users]
    exact updateFirst_append l₁ l₂ _ _ _ hq1 hqU
  have hfst : (resetPassword hash tUse (forgotPassword token tIssue st email).2
      token p1).1 = (200, "Contraseña actualizada correctamente") := by
    simp [resetPassword, hfind1]
  have hfind2 : (resetPassword hash tUse (forgotPassword token tIssue st email).2
      token p1).2.users.find? (resetTokenMatches token tReuse) = none := by
    rw [h2users]
    apply List.find?_eq_none.mpr
    intro x hx
    rcases List.mem_append.mp hx with hx | hx
    · simp [resetTokenMatches_false_of_ne token tReuse x
        (hfresh x (by rw [hsplit]; exact List.mem_append_left _ hx))]
    · rcases List.mem_cons.mp hx with rfl | hx
      · simp [resetTokenMatches]
      · simp [resetTokenMatches_false_of_ne token tReuse x
          (hfresh x (by rw [hsplit]
                        exact List.mem_append_right _ (List.mem_cons_of_mem _ hx)))]
  refine ⟨hfst, ?_, ?_⟩
  · have hcons : List.find? (fun x : UserRec => x.email == email)
        (({ u with password := hash p1, resetPasswordToken := none,
                   resetPasswordExpires := none }) :: l₂)
        = some ({ u with password := hash p1, resetPasswordToken := none,
                         resetPasswordExpires := none }) :=
      List.find?_cons_of_pos _ hpa
    rw [findUserByEmail, h2users, find?_append_of_forall_false _ hpre, hcons]
    rfl
  · exact resetPassword_not_found hash tReuse _ token p2 hfind2

/-- Witness for C2: token "tok123" issued at time 0, used at time 10, reuse
attempted at time 20. -/
theorem resetPassword_roundtrip_witness :
    (resetPassword (fun s => s ++ "#h") 10
        (forgotPassword "tok123" 0
          ⟨[⟨1, "Ana", "Diaz", 30, "ana@mail.com", "oldhash", none, none⟩],
           fun _ => ⟨0, none⟩⟩ "ana@mail.com").2 "tok123" "newpass").1
      = (200, "Contraseña actualizada correctamente") ∧
    (findUserByEmail
        (resetPassword (fun s => s ++ "#h") 10
          (forgotPassword "tok123" 0
            ⟨[⟨1, "Ana", "Diaz", 30, "ana@mail.com", "oldhash", none, none⟩],
             fun _ => ⟨0, none⟩⟩ "ana@mail.com").2 "tok123" "newpass").2.users
        "ana@mail.com").map
        (fun v => (v.password, v.resetPasswordToken, v.resetPasswordExpires))
      = some ("newpass" ++ "#h", none, none) ∧
    resetPassword (fun s => s ++ "#h") 20
        (resetPassword (fun s => s ++ "#h") 10
          (forgotPassword "tok123" 0
            ⟨[⟨1, "Ana", "Diaz", 30, "ana@mail.com", "oldhash", none, none⟩],
             fun _ => ⟨0, none⟩⟩ "ana@mail.com").2 "tok123" "newpass").2 "tok123" "other"
      = ((400, "Token inválido o expirado"),
         (resetPassword (fun s => s ++ "#h") 10
           (forgotPassword "tok123" 0
             ⟨[⟨1, "Ana", "Diaz", 30, "ana@mail.com", "oldhash", none, none⟩],
              fun _ => ⟨0, none⟩⟩ "ana@mail.com").2 "tok123" "newpass").2) :=
  resetPassword_roundtrip (fun s => s ++ "#h")
    ⟨[⟨1, "Ana", "Diaz", 30, "ana@mail.com", "oldhash", none, none⟩], fun _ => ⟨0, none⟩⟩
    "ana@mail.com" "tok123" "newpass" "other"
    ⟨1, "Ana", "Diaz", 30, "ana@mail.com", "oldhash", none, none⟩ 0 10 20
    rfl (by decide) (by decide)

theorem changePassword_found (compare : String → String → Bool) (hash : String → String)
    (st : AuthState) (uid : Nat) (current newp : String) (u : UserRec)
    (hf : st.users.find? (fun v => v.id == uid) = some u)
    (hcur : compare current u.password = true) :
    changePassword compare hash st uid current newp =
      ((200, "Contraseña cambiada exitosamente"),
       { st with users := (updateFirst st.users (fun v => v.id == uid)
           (fun v => { v with password := hash newp })) }) := by
  simp [changePassword, hf, hcur]

/-- C9: neither `resetPassword` nor `changePassword` applies the signup
complexity rule `passwordRegexTest`: with a valid unexpired token (resp. a
correct current password) the new password is accepted and its hash stored
even when it fails the rule. -/
theorem resetPassword_ignores_signup_policy
    (hash : String → String) (compare : String → String → Bool)
    (stR stC : AuthState) (token p current : String) (uR uC : UserRec)
    (now uid : Nat)
    (hpol : passwordRegexTest p = false)
    (hfR : stR.users.find? (resetTokenMatches token now) = some uR)
    (hfC : stC.users.find? (fun v => v.id == uid) = some uC)
    (hcur : compare current uC.password = true) :
    (resetPassword hash now stR token p).1 = (200, "Contraseña actualizada correctamente") ∧
    ({ uR with password := hash p, resetPasswordToken := none,
               resetPasswordExpires := none }) ∈ (resetPassword hash now stR token p).2.users ∧
    (changePassword compare hash stC uid current p).1
        = (200, "Contraseña cambiada exitosamente") ∧
    ({ uC with password := hash p }) ∈ (changePassword compare hash stC uid current p).2.users := by
  obtain ⟨l₁, l₂, hsplit, hpre, hpa⟩ := find?_eq_some_split hfR
  obtain ⟨m₁, m₂, hsplitC, hpreC, hpaC⟩ := find?_eq_some_split hfC
  have husersR : (resetPassword hash now stR token p).2.users =
      l₁ ++ ({ uR with password := hash p, resetPasswordToken := none,
                       resetPasswordExpires := none }) :: l₂ := by
    rw [resetPassword_found hash now stR token p uR hfR]
    show updateFirst stR.users _ _ = _
    rw [hsplit]
    exact updateFirst_append l₁ l₂ _ _ _ hpre hpa
  have husersC : (changePassword compare hash stC uid current p).2.users =
      m₁ ++ ({ uC with password := hash p }) :: m₂ := by
    rw [changePassword_found compare hash stC uid current p uC hfC hcur]
    show updateFirst stC.users _ _ = _
    rw [hsplitC]
    exact updateFirst_append m₁ m₂ _ _ _ hpreC hpaC
  refine ⟨?_, ?_, ?_, ?_⟩
  · rw [resetPassword_found hash now stR token p uR hfR]
  · rw [husersR]
    exact List.mem_append_right _ (List.mem_cons_self _ _)
  · rw [changePassword_found compare hash stC uid current p uC hfC hcur]
  · rw [husersC]
    exact List.mem_append_right _ (List.mem_cons_self _ _)

/-- Witness for C9: new password "abc" (length 3, no uppercase, no special
character) is accepted by both flows. -/
theorem resetPassword_ignores_signup_policy_witness :
    passwordRegexTest "abc" = false ∧
    (resetPassword (fun s => s ++ "#h") 50
        ⟨[⟨1, "Ana", "Diaz", 30, "ana@mail.com", "oldhash", some "tok", some 100⟩],
         fun _ => ⟨0, none⟩⟩ "tok" "abc").1
      = (200, "Contraseña actualizada correctamente") ∧
    (⟨1, "Ana", "Diaz", 30, "ana@mail.com", "abc" ++ "#h", none, none⟩ : UserRec)
      ∈ (resetPassword (fun s => s ++ "#h") 50
        ⟨[⟨1, "Ana", "Diaz", 30, "ana@mail.com", "oldhash", some "tok", some 100⟩],
         fun _ => ⟨0, none⟩⟩ "tok" "abc").2.users ∧
    (changePassword (fun raw stored => raw == stored) (fun s => s ++ "#h")
        ⟨[⟨2, "Bob", "Ruiz", 40, "bob@mail.com", "cur", none, none⟩],
         fun _ => ⟨0, none⟩⟩ 2 "cur" "abc").1
      = (200, "Contraseña cambiada exitosamente") ∧
    (⟨2, "Bob", "Ruiz", 40, "bob@mail.com", "abc" ++ "#h", none, none⟩ : UserRec)
      ∈ (changePassword (fun raw stored => raw == stored) (fun s => s ++ "#h")
        ⟨[⟨2, "Bob", "Ruiz", 40, "bob@mail.com", "cur", none, none⟩],
         fun _ => ⟨0, none⟩⟩ 2 "cur" "abc").2.users :=
  ⟨by decide,
   resetPassword_ignores_signup_policy (fun s => s ++ "#h") (fun raw stored => raw == stored)
     ⟨[⟨1, "Ana", "Diaz", 30, "ana@mail.com", "oldhash", some "tok", some 100⟩],
      fun _ => ⟨0, none⟩⟩
     ⟨[⟨2, "Bob", "Ruiz", 40, "bob@mail.com", "cur", none, none⟩], fun _ => ⟨0, none⟩⟩
     "tok" "abc" "cur"
     ⟨1, "Ana", "Diaz", 30, "ana@mail.com", "oldhash", some "tok", some 100⟩
     ⟨2, "Bob", "Ruiz", 40, "bob@mail.com", "cur", none, none⟩
     50 2 (by decide) (by decide) (by decide) (by decide)⟩

/-! ### Rating upsert lemmas -/

theorem createOrUpdateRating_valid_step (userId : Nat) (movieId : String) (v : ℚ)
    (store : List RatingRec) (hm : (movieId == "") = false)
    (hv1 : 1 ≤ v) (hv5 : v ≤ 5)
    (hcount : store.countP (ratingKey userId movieId) ≤ 1) :
    ((createOrUpdateRating userId v movieId store).2).countP (ratingKey userId movieId) = 1 ∧
    (((createOrUpdateRating userId v movieId store).2).find?
        (ratingKey userId movieId)).map (fun r => r.value) = some v := by
  have hv0 : (v == 0) = false := beq_eq_false_iff_ne.mpr (by
    intro h
    rw [h] at hv1
    norm_num at hv1)
  have hd1 : decide (v < 1) = false := decide_eq_false (not_lt.mpr hv1)
  have hd5 : decide (5 < v) = false := decide_eq_false (not_lt.mpr hv5)
  rcases hfind : store.find? (ratingKey userId movieId) with _ | r
  · have heval : (createOrUpdateRating userId v movieId store).2 =
        store ++ [{ userId := userId, moviePexelsId := movieId, value := v }] := by
      simp [createOrUpdateRating, hv0, hm, hd1, hd5, hfind]
    have hall : ∀ x ∈ store, ratingKey userId movieId x = false := by
      intro x hx
      have := List.find?_eq_none.mp hfind x hx
      simpa using this
    have hnew : ratingKey userId movieId
        ({ userId := userId, moviePexelsId := movieId, value := v }) = true := by
      simp [ratingKey]
    constructor
    · rw [heval, List.countP_append, List.countP_eq_zero.mpr (by
        intro a ha
        simp [hall a ha])]
      simp [List.countP_cons_of_pos _ _ hnew]
    · rw [heval, find?_append_of_forall_false _ hall, List.find?_cons_of_pos _ hnew]
      rfl
  · obtain ⟨l₁, l₂, hsplit, hpre, hpa⟩ := find?_eq_some_split hfind
    have heval : (createOrUpdateRating userId v movieId store).2 =
        updateFirst store (ratingKey userId movieId) (fun x => { x with value := v }) := by
      simp [createOrUpdateRating, hv0, hm, hd1, hd5, hfind]
    have hupd : updateFirst store (ratingKey userId movieId)
        (fun x => { x with value := v }) = l₁ ++ ({ r with value := v }) :: l₂ := by
      rw [hsplit]
      exact updateFirst_append l₁ l₂ _ _ _ hpre hpa
    have hpa' : ratingKey userId movieId ({ r with value := v }) = true := hpa
    have hzero : store.countP (ratingKey userId movieId) =
        l₁.countP (ratingKey userId movieId) + (l₂.countP (ratingKey userId movieId) + 1) := by
      rw [hsplit, List.countP_append, List.countP_cons_of_pos _ _ hpa]
    have hl₁ : l₁.countP (ratingKey userId movieId) = 0 := by omega
    have hl₂ : l₂.countP (ratingKey userId movieId) = 0 := by omega
    constructor
    · rw [heval, hupd, List.countP_append, List.countP_cons_of_pos _ _ hpa', hl₁, hl₂]
    · rw [heval, hupd, find?_append_of_forall_false _ hpre, List.find?_cons_of_pos _ hpa']
      rfl

theorem ratingSeq_preserves (userId : Nat) (movieId : String)
    (hm : (movieId == "") = false) (vals : List ℚ) (store : List RatingRec) (v : ℚ)
    (hvals : ∀ w ∈ vals, 1 ≤ w ∧ w ≤ 5)
    (hinv : store.countP (ratingKey userId movieId) = 1 ∧
      (store.find? (ratingKey userId movieId)).map (fun r => r.value) = some v) :
    (ratingSeq userId movieId vals store).countP (ratingKey userId movieId) = 1 ∧
    ((ratingSeq userId movieId vals store).find? (ratingKey userId movieId)).map
      (fun r => r.value) = some (vals.getLastD v) := by
  induction vals generalizing store v with
  | nil => simpa [ratingSeq] using hinv
  | cons w rest ih =>
    have hstep := createOrUpdateRating_valid_step userId movieId w store hm
      (hvals w (by simp)).1 (hvals w (by simp)).2 (le_of_eq hinv.1)
    have hfold : ratingSeq userId movieId (w :: rest) store =
        ratingSeq userId movieId rest (createOrUpdateRating userId w movieId store).2 := rfl
    rw [hfold, List.getLastD_cons]
    exact ih _ w (fun x hx => hvals x (List.mem_cons_of_mem _ hx)) hstep

/-- C3: starting from a store holding at most one rating for the (user, movie)
pair, any nonempty sequence of sequential `createOrUpdateRating` calls with
valid values leaves exactly one rating for the pair, whose value is the last
value submitted. -/
theorem rating_upsert_exactly_one_last_value
    (userId : Nat) (movieId : String) (vals : List ℚ) (store : List RatingRec)
    (hm : (movieId == "") = false)
    (hvals : ∀ v ∈ vals, 1 ≤ v ∧ v ≤ 5)
    (hne : vals ≠ [])
    (hcount : store.countP (ratingKey userId movieId) ≤ 1) :
    (ratingSeq userId movieId vals store).countP (ratingKey userId movieId) = 1 ∧
    ((ratingSeq userId movieId vals store).find? (ratingKey userId movieId)).map
      (fun r => r.value) = some (vals.getLast hne) := by
  rcases vals with _ | ⟨v, rest⟩
  · exact absurd rfl hne
  · have hstep := createOrUpdateRating_valid_step userId movieId v store hm
      (hvals v (by simp)).1 (hvals v (by simp)).2 hcount
    have hfold : ratingSeq userId movieId (v :: rest) store =
        ratingSeq userId movieId rest (createOrUpdateRating userId v movieId store).2 := rfl
    rw [hfold, List.getLast_eq_getLastD]
    exact ratingSeq_preserves userId movieId hm rest _ v
      (fun x hx => hvals x (List.mem_cons_of_mem _ hx)) hstep

/-- Witness for C3: user 7 rates movie "m1" with 5 then 3 starting from an
empty store; one record remains and its value is 3. -/
theorem rating_upsert_exactly_one_last_value_witness :
    (ratingSeq 7 "m1" [5, 3] []).countP (ratingKey 7 "m1") = 1 ∧
    ((ratingSeq 7 "m1" [5, 3] []).find? (ratingKey 7 "m1")).map (fun r => r.value)
      = some 3 :=
  rating_upsert_exactly_one_last_value 7 "m1" [5, 3] []
    (by decide) (by decide) (by decide) (by decide)

theorem twoPointFive_eq_div : twoPointFive = 5 / 2 := by
  show Rat.mk' 5 2 _ _ = 5 / 2
  rw [Rat.mk'_eq_divInt, Rat.divInt_eq_div]
  norm_num

/-- Counterexample for C5: the submitted value 5/2 is not an integer, yet
`createOrUpdateRating` does not reject it — the range check `value < 1 ||
value > 5` tests no integrality — and a rating holding 5/2 is created. -/
theorem rating_nonint_value_accepted_cex :
    isIntegerValue twoPointFive = false ∧
    1 ≤ twoPointFive ∧ twoPointFive ≤ 5 ∧
    createOrUpdateRating 7 twoPointFive "m1" []
      = (RatingResult.created, [{ userId := 7, moviePexelsId := "m1", value := twoPointFive }]) ∧
    ratingStatus (createOrUpdateRating 7 twoPointFive "m1" []).1 ≠ 400 ∧
    (createOrUpdateRating 7 twoPointFive "m1" []).2 ≠ [] := by
  refine ⟨rfl, by decide, by decide, ?_, by decide, by decide⟩
  decide

/-- C5 amended: `createOrUpdateRating` rejects with a 400 response, leaving
the store unchanged, exactly when the submitted value is 0 (falsy) or lies
outside [1,5]; non-integer values inside the range are not rejected. -/
theorem rating_range_validation (userId : Nat) (v : ℚ) (movieId : String)
    (store : List RatingRec)
    (h : v = 0 ∨ v < 1 ∨ 5 < v) :
    ratingStatus (createOrUpdateRating userId v movieId store).1 = 400 ∧
    (createOrUpdateRating userId v movieId store).2 = store := by
  by_cases hv0 : v = 0
  · subst hv0
    constructor <;> simp [createOrUpdateRating, ratingStatus]
  · have hb0 : (v == 0) = false := beq_eq_false_iff_ne.mpr hv0
    rcases h with h | h | h
    · exact absurd h hv0
    · have hd : decide (v < 1) = true := decide_eq_true h
      by_cases hm : movieId = "" <;> constructor <;>
        simp [createOrUpdateRating, ratingStatus, hb0, hd, hm]
    · have hd : decide (5 < v) = true := decide_eq_true h
      by_cases hm : movieId = "" <;> constructor <;>
        simp [createOrUpdateRating, ratingStatus, hb0, hd, hm]

/-- Witness for the amended C5: value 6 is rejected with status 400 and the
store is unchanged. -/
theorem rating_range_validation_witness :
    ratingStatus (createOrUpdateRating 7 6 "m1"
      [{ userId := 7, moviePexelsId := "m1", value := 4 }]).1 = 400 ∧
    (createOrUpdateRating 7 6 "m1"
      [{ userId := 7, moviePexelsId := "m1", value := 4 }]).2
      = [{ userId := 7, moviePexelsId := "m1", value := 4 }] :=
  rating_range_validation 7 6 "m1" [{ userId := 7, moviePexelsId := "m1", value := 4 }]
    (by decide)

/-- C4: for comment update and delete, a missing comment gives the 404
NotFoundError response, a comment owned by a different user gives the 403
ForbiddenError response with the store unchanged, and only the owner's request
performs the deletion (one matching record fewer) or the description
overwrite. -/
theorem comment_mutation_requires_owner
    (acting cid : Nat) (d : String) (store : List CommentRec) (c : CommentRec) :
    (store.find? (fun x => x.id == cid) = none →
      deleteComment acting cid store = (CommentResult.notFound, store) ∧
      updateComment acting cid d store = (CommentResult.notFound, store)) ∧
    (store.find? (fun x => x.id == cid) = some c → c.userId ≠ acting →
      deleteComment acting cid store = (CommentResult.forbidden, store) ∧
      updateComment acting cid d store = (CommentResult.forbidden, store)) ∧
    (store.find? (fun x => x.id == cid) = some c → c.userId = acting →
      deleteComment acting cid store
        = (CommentResult.deletedOk, removeFirst store (fun x => x.id == cid)) ∧
      (removeFirst store (fun x => x.id == cid)).countP (fun x => x.id == cid)
        = store.countP (fun x => x.id == cid) - 1 ∧
      updateComment acting cid d store
        = (CommentResult.updatedOk, updateFirst store (fun x => x.id == cid)
            (fun x => { x with description := d })) ∧
      (updateFirst store (fun x => x.id == cid)
          (fun x => { x with description := d })).find? (fun x => x.id == cid)
        = some ({ c with description := d })) := by
  refine ⟨?_, ?_, ?_⟩
  · intro h
    constructor <;> simp [deleteComment, updateComment, h]
  · intro h hne
    have hb : (c.userId != acting) = true := bne_iff_ne.mpr hne
    constructor <;> simp [deleteComment, updateComment, h, hb]
  · intro h heq
    have hb : (c.userId != acting) = false := by simp [heq]
    obtain ⟨l₁, l₂, hsplit, hpre, hpa⟩ := find?_eq_some_split h
    have hpa' : (fun x : CommentRec => x.id == cid) ({ c with description := d }) = true := hpa
    refine ⟨by simp [deleteComment, h, hb], ?_, by simp [updateComment, h, hb], ?_⟩
    · have hcnt : List.countP (fun x : CommentRec => x.id == cid) (c :: l₂)
          = List.countP (fun x : CommentRec => x.id == cid) l₂ + 1 :=
        List.countP_cons_of_pos _ _ hpa
      rw [hsplit, removeFirst_append l₁ l₂ c _ hpre hpa, List.countP_append,
        List.countP_append, hcnt]
      omega
    · have hfind : List.find? (fun x : CommentRec => x.id == cid)
          (({ c with description := d }) :: l₂)
          = some ({ c with description := d }) :=
        List.find?_cons_of_pos _ hpa'
      rw [hsplit, updateFirst_append l₁ l₂ c _ _ hpre hpa,
        find?_append_of_forall_false _ hpre, hfind]

/-- Witness for C4: the three branches exercised on concrete stores — missing
id 9 on an empty store; comment 5 owned by user 2 attacked by user 3; comment
5 updated and deleted by its owner 2. -/
theorem comment_mutation_requires_owner_witness :
    (deleteComment 1 9 [] = (CommentResult.notFound, []) ∧
     updateComment 1 9 "x" [] = (CommentResult.notFound, [])) ∧
    (deleteComment 3 5 [{ id := 5, userId := 2, moviePexelsId := "m", description := "hey" }]
        = (CommentResult.forbidden,
           [{ id := 5, userId := 2, moviePexelsId := "m", description := "hey" }]) ∧
     updateComment 3 5 "hack" [{ id := 5, userId := 2, moviePexelsId := "m", description := "hey" }]
        = (CommentResult.forbidden,
           [{ id := 5, userId := 2, moviePexelsId := "m", description := "hey" }])) ∧
    (deleteComment 2 5 [{ id := 5, userId := 2, moviePexelsId := "m", description := "hey" }]
        = (CommentResult.deletedOk,
           removeFirst [{ id := 5, userId := 2, moviePexelsId := "m", description := "hey" }]
             (fun x => x.id == 5)) ∧
     updateComment 2 5 "edited"
        [{ id := 5, userId := 2, moviePexelsId := "m", description := "hey" }]
        = (CommentResult.updatedOk,
           updateFirst [{ id := 5, userId := 2, moviePexelsId := "m", description := "hey" }]
             (fun x => x.id == 5) (fun x => { x with description := "edited" }))) :=
  ⟨(comment_mutation_requires_owner 1 9 "x" []
      ⟨0, 0, "", ""⟩).1 rfl,
   ⟨((comment_mutation_requires_owner 3 5 "hack"
       [{ id := 5, userId := 2, moviePexelsId := "m", description := "hey" }]
       ⟨5, 2, "m", "hey"⟩).2.1 rfl (by decide)).1,
    ((comment_mutation_requires_owner 3 5 "hack"
       [{ id := 5, userId := 2, moviePexelsId := "m", description := "hey" }]
       ⟨5, 2, "m", "hey"⟩).2.1 rfl (by decide)).2⟩,
   ⟨((comment_mutation_requires_owner 2 5 "edited"
       [{ id := 5, userId := 2, moviePexelsId := "m", description := "hey" }]
       ⟨5, 2, "m", "hey"⟩).2.2 rfl rfl).1,
    ((comment_mutation_requires_owner 2 5 "edited"
       [{ id := 5, userId := 2, moviePexelsId := "m", description := "hey" }]
       ⟨5, 2, "m", "hey"⟩).2.2 rfl rfl).2.2.1⟩⟩

/-- C6 (code evaluation at the failing input): `deleteMovie` performs no
ownership comparison — acting user 99 deletes the movie owned by user 10, the
record leaves the store and the handler answers 204. -/
theorem deleteMovie_ignores_ownership_cex :
    deleteMovie 99 1
      [{ id := 1, pexelsId := "px", title := "Title", videoUrl := "v",
         miniatureUrl := "m", userId := 10 }]
      = (MovieResult.deletedOk, []) ∧
    movieStatus (deleteMovie 99 1
      [{ id := 1, pexelsId := "px", title := "Title", videoUrl := "v",
         miniatureUrl := "m", userId := 10 }]).1 = 204 ∧
    (99 : Nat) ≠ 10 := by
  refine ⟨by decide, by decide, by decide⟩

/-- C7: `getAverageRatingByMovie` returns (0, 0, 0) when the movie has no
ratings; otherwise its count equals the number of ratings of the movie, its
average times that count equals the sum of their values (exact arithmetic
mean), and its third component is the requesting user's own rating value when
one exists and 0 otherwise; on the store [5, 3, 4] it returns (4, 3, 0) for a
user who has not rated. -/
theorem averageRating_mean_count_own (userId : Nat) (movieId : String)
    (store : List RatingRec) (r : RatingRec) :
    (store.countP (fun x => x.moviePexelsId == movieId) = 0 →
      getAverageRatingByMovie userId movieId store = (0, 0, 0)) ∧
    (getAverageRatingByMovie userId movieId store).2.1
      = store.countP (fun x => x.moviePexelsId == movieId) ∧
    (getAverageRatingByMovie userId movieId store).1
        * ((store.countP (fun x => x.moviePexelsId == movieId) : Nat) : ℚ)
      = ((store.filter (fun x => x.moviePexelsId == movieId)).map (fun x => x.value)).sum ∧
    (store.find? (ratingKey userId movieId) = some r →
      (getAverageRatingByMovie userId movieId store).2.2 = r.value) ∧
    (store.find? (ratingKey userId movieId) = none →
      (getAverageRatingByMovie userId movieId store).2.2 = 0) ∧
    getAverageRatingByMovie 9 "m0"
      [{ userId := 1, moviePexelsId := "m0", value := 5 },
       { userId := 2, moviePexelsId := "m0", value := 3 },
       { userId := 3, moviePexelsId := "m0", value := 4 }] = (4, 3, 0) := by
  have hex : getAverageRatingByMovie 9 "m0"
      [{ userId := 1, moviePexelsId := "m0", value := 5 },
       { userId := 2, moviePexelsId := "m0", value := 3 },
       { userId := 3, moviePexelsId := "m0", value := 4 }] = (4, 3, 0) := by
    refine Prod.ext ?_ rfl
    show (([5, 3, 4] : List ℚ).sum) / ((3 : Nat) : ℚ) = 4
    norm_num [List.sum_cons, List.sum_nil]
  by_cases hE : store.filter (fun x => x.moviePexelsId == movieId) = []
  · have hcnt : store.countP (fun x => x.moviePexelsId == movieId) = 0 := by
      rw [List.countP_eq_length_filter, hE]
      rfl
    have hval : getAverageRatingByMovie userId movieId store = (0, 0, 0) := by
      simp [getAverageRatingByMovie, hE]
    refine ⟨fun _ => hval, ?_, ?_, ?_, fun _ => by rw [hval], hex⟩
    · rw [hval, hcnt]
    · rw [hval, hcnt, hE]
      simp
    · intro hsome
      have hkey := List.find?_some hsome
      have hrmem := List.mem_of_find?_eq_some hsome
      have hmem2 : r ∈ store.filter (fun x => x.moviePexelsId == movieId) := by
        rw [List.mem_filter]
        simp only [ratingKey, Bool.and_eq_true] at hkey
        exact ⟨hrmem, hkey.2⟩
      rw [hE] at hmem2
      simp at hmem2
  · have hne : (store.filter (fun x => x.moviePexelsId == movieId)).isEmpty = false := by
      simp [List.isEmpty_iff, hE]
    have hval : getAverageRatingByMovie userId movieId store =
        (((store.filter (fun x => x.moviePexelsId == movieId)).map (fun x => x.value)).sum
           / ((store.filter (fun x => x.moviePexelsId == movieId)).length : ℚ),
         (store.filter (fun x => x.moviePexelsId == movieId)).length,
         ((store.find? (ratingKey userId movieId)).map (fun x => x.value)).getD 0) := by
      simp [getAverageRatingByMovie, hne]
    have hlen : ((store.filter (fun x => x.moviePexelsId == movieId)).length : ℚ) ≠ 0 :=
      Nat.cast_ne_zero.mpr (fun h0 => hE (List.length_eq_zero.mp h0))
    refine ⟨?_, ?_, ?_, ?_, ?_, hex⟩
    · intro hcnt0
      exact absurd (List.length_eq_zero.mp (by
        rw [← List.countP_eq_length_filter]
        exact hcnt0)) hE
    · rw [hval, List.countP_eq_length_filter]
    · rw [hval, List.countP_eq_length_filter]
      exact div_mul_cancel₀ _ hlen
    · intro hsome
      rw [hval, hsome]
      rfl
    · intro hnone
      rw [hval, hnone]
      rfl

/-- Witness for C7 on the store [5, 3, 4]: count 3, mean property, requester 1
sees the own rating 5, and the spec example evaluates to (4, 3, 0). -/
theorem averageRating_mean_count_own_witness :
    (getAverageRatingByMovie 1 "m"
      [{ userId := 1, moviePexelsId := "m", value := 5 },
       { userId := 2, moviePexelsId := "m", value := 3 },
       { userId := 3, moviePexelsId := "m", value := 4 }]).2.1
      = ([{ userId := 1, moviePexelsId := "m", value := 5 },
          { userId := 2, moviePexelsId := "m", value := 3 },
          { userId := 3, moviePexelsId := "m", value := 4 }] : List RatingRec).countP
          (fun x => x.moviePexelsId == "m") ∧
    (getAverageRatingByMovie 1 "m"
      [{ userId := 1, moviePexelsId := "m", value := 5 },
       { userId := 2, moviePexelsId := "m", value := 3 },
       { userId := 3, moviePexelsId := "m", value := 4 }]).1
        * ((([{ userId := 1, moviePexelsId := "m", value := 5 },
              { userId := 2, moviePexelsId := "m", value := 3 },
              { userId := 3, moviePexelsId := "m", value := 4 }] : List RatingRec).countP
              (fun x => x.moviePexelsId == "m") : Nat) : ℚ)
      = ((([{ userId := 1, moviePexelsId := "m", value := 5 },
            { userId := 2, moviePexelsId := "m", value := 3 },
            { userId := 3, moviePexelsId := "m", value := 4 }] : List RatingRec).filter
            (fun x => x.moviePexelsId == "m")).map (fun x => x.value)).sum ∧
    (getAverageRatingByMovie 1 "m"
      [{ userId := 1, moviePexelsId := "m", value := 5 },
       { userId := 2, moviePexelsId := "m", value := 3 },
       { userId := 3, moviePexelsId := "m", value := 4 }]).2.2
      = ({ userId := 1, moviePexelsId := "m", value := 5 } : RatingRec).value ∧
    getAverageRatingByMovie 9 "m0"
      [{ userId := 1, moviePexelsId := "m0", value := 5 },
       { userId := 2, moviePexelsId := "m0", value := 3 },
       { userId := 3, moviePexelsId := "m0", value := 4 }] = (4, 3, 0) :=
  ⟨(averageRating_mean_count_own 1 "m"
      [{ userId := 1, moviePexelsId := "m", value := 5 },
       { userId := 2, moviePexelsId := "m", value := 3 },
       { userId := 3, moviePexelsId := "m", value := 4 }]
      { userId := 1, moviePexelsId := "m", value := 5 }).2.1,
   (averageRating_mean_count_own 1 "m"
      [{ userId := 1, moviePexelsId := "m", value := 5 },
       { userId := 2, moviePexelsId := "m", value := 3 },
       { userId := 3, moviePexelsId := "m", value := 4 }]
      { userId := 1, moviePexelsId := "m", value := 5 }).2.2.1,
   (averageRating_mean_count_own 1 "m"
      [{ userId := 1, moviePexelsId := "m", value := 5 },
       { userId := 2, moviePexelsId := "m", value := 3 },
       { userId := 3, moviePexelsId := "m", value := 4 }]
      { userId := 1, moviePexelsId := "m", value := 5 }).2.2.2.1 (by decide),
   (averageRating_mean_count_own 1 "m"
      [{ userId := 1, moviePexelsId := "m", value := 5 },
       { userId := 2, moviePexelsId := "m", value := 3 },
       { userId := 3, moviePexelsId := "m", value := 4 }]
      { userId := 1, moviePexelsId := "m", value := 5 }).2.2.2.2.2⟩

/-- C10: `deleteProfile` leaves the comment, rating and movie collections
untouched in every branch (no cascade deletion), and on success (password
confirmed) it removes exactly the acting caller's User record. -/
theorem deleteProfile_no_cascade (compare : String → String → Bool) (app : AppState)
    (uid : Nat) (p : String) (u : UserRec) :
    (deleteProfile compare app uid p).2.comments = app.comments ∧
    (deleteProfile compare app uid p).2.ratings = app.ratings ∧
    (deleteProfile compare app uid p).2.movies = app.movies ∧
    ((p == "") = false → app.users.find? (fun v => v.id == uid) = some u →
      compare p u.password = true →
      (deleteProfile compare app uid p).1 = (200, "Perfil eliminado y sesión cerrada") ∧
      (deleteProfile compare app uid p).2.users
        = removeFirst app.users (fun v => v.id == uid)) := by
  have hframe : (deleteProfile compare app uid p).2.comments = app.comments ∧
      (deleteProfile compare app uid p).2.ratings = app.ratings ∧
      (deleteProfile compare app uid p).2.movies = app.movies := by
    unfold deleteProfile
    split
    · exact ⟨rfl, rfl, rfl⟩
    · split
      · exact ⟨rfl, rfl, rfl⟩
      · split <;> exact ⟨rfl, rfl, rfl⟩
  refine ⟨hframe.1, hframe.2.1, hframe.2.2, ?_⟩
  intro hp hf hcmp
  have heval : deleteProfile compare app uid p =
      ((200, "Perfil eliminado y sesión cerrada"),
       { app with users := removeFirst app.users (fun v => v.id == uid) }) := by
    simp [deleteProfile, hp, hf, hcmp]
  rw [heval]
  exact ⟨rfl, rfl⟩

/-- Witness for C10: an app state whose single user owns a comment, a rating
and a movie; deleting the profile (correct password resubmitted) empties only
the user collection. -/
theorem deleteProfile_no_cascade_witness :
    (deleteProfile (fun raw stored => raw == stored)
      ⟨[⟨1, "Ana", "Diaz", 30, "ana@mail.com", "pw", none, none⟩],
       [{ id := 5, userId := 1, moviePexelsId := "m", description := "hey" }],
       [{ userId := 1, moviePexelsId := "m", value := 4 }],
       [{ id := 2, pexelsId := "px", title := "T", videoUrl := "v",
          miniatureUrl := "mi", userId := 1 }]⟩ 1 "pw").2.comments
      = [{ id := 5, userId := 1, moviePexelsId := "m", description := "hey" }] ∧
    (deleteProfile (fun raw stored => raw == stored)
      ⟨[⟨1, "Ana", "Diaz", 30, "ana@mail.com", "pw", none, none⟩],
       [{ id := 5, userId := 1, moviePexelsId := "m", description := "hey" }],
       [{ userId := 1, moviePexelsId := "m", value := 4 }],
       [{ id := 2, pexelsId := "px", title := "T", videoUrl := "v",
          miniatureUrl := "mi", userId := 1 }]⟩ 1 "pw").2.ratings
      = [{ userId := 1, moviePexelsId := "m", value := 4 }] ∧
    (deleteProfile (fun raw stored => raw == stored)
      ⟨[⟨1, "Ana", "Diaz", 30, "ana@mail.com", "pw", none, none⟩],
       [{ id := 5, userId := 1, moviePexelsId := "m", description := "hey" }],
       [{ userId := 1, moviePexelsId := "m", value := 4 }],
       [{ id := 2, pexelsId := "px", title := "T", videoUrl := "v",
          miniatureUrl := "mi", userId := 1 }]⟩ 1 "pw").2.movies
      = [{ id := 2, pexelsId := "px", title := "T", videoUrl := "v",
           miniatureUrl := "mi", userId := 1 }] ∧
    (deleteProfile (fun raw stored => raw == stored)
      ⟨[⟨1, "Ana", "Diaz", 30, "ana@mail.com", "pw", none, none⟩],
       [{ id := 5, userId := 1, moviePexelsId := "m", description := "hey" }],
       [{ userId := 1, moviePexelsId := "m", value := 4 }],
       [{ id := 2, pexelsId := "px", title := "T", videoUrl := "v",
          miniatureUrl := "mi", userId := 1 }]⟩ 1 "pw").1
      = (200, "Perfil eliminado y sesión cerrada") ∧
    (deleteProfile (fun raw stored => raw == stored)
      ⟨[⟨1, "Ana", "Diaz", 30, "ana@mail.com", "pw", none, none⟩],
       [{ id := 5, userId := 1, moviePexelsId := "m", description := "hey" }],
       [{ userId := 1, moviePexelsId := "m", value := 4 }],
       [{ id := 2, pexelsId := "px", title := "T", videoUrl := "v",
          miniatureUrl := "mi", userId := 1 }]⟩ 1 "pw").2.users
      = removeFirst [⟨1, "Ana", "Diaz", 30, "ana@mail.com", "pw", none, none⟩]
          (fun v => v.id == 1) :=
  ⟨(deleteProfile_no_cascade (fun raw stored => raw == stored)
      ⟨[⟨1, "Ana", "Diaz", 30, "ana@mail.com", "pw", none, none⟩],
       [{ id := 5, userId := 1, moviePexelsId := "m", description := "hey" }],
       [{ userId := 1, moviePexelsId := "m", value := 4 }],
       [{ id := 2, pexelsId := "px", title := "T", videoUrl := "v",
          miniatureUrl := "mi", userId := 1 }]⟩ 1 "pw"
      ⟨1, "Ana", "Diaz", 30, "ana@mail.com", "pw", none, none⟩).1,
   (deleteProfile_no_cascade (fun raw stored => raw == stored)
      ⟨[⟨1, "Ana", "Diaz", 30, "ana@mail.com", "pw", none, none⟩],
       [{ id := 5, userId := 1, moviePexelsId := "m", description := "hey" }],
       [{ userId := 1, moviePexelsId := "m", value := 4 }],
       [{ id := 2, pexelsId := "px", title := "T", videoUrl := "v",
          miniatureUrl := "mi", userId := 1 }]⟩ 1 "pw"
      ⟨1, "Ana", "Diaz", 30, "ana@mail.com", "pw", none, none⟩).2.1,
   (deleteProfile_no_cascade (fun raw stored => raw == stored)
      ⟨[⟨1, "Ana", "Diaz", 30, "ana@mail.com", "pw", none, none⟩],
       [{ id := 5, userId := 1, moviePexelsId := "m", description := "hey" }],
       [{ userId := 1, moviePexelsId := "m", value := 4 }],
       [{ id := 2, pexelsId := "px", title := "T", videoUrl := "v",
          miniatureUrl := "mi", userId := 1 }]⟩ 1 "pw"
      ⟨1, "Ana", "Diaz", 30, "ana@mail.com", "pw", none, none⟩).2.2.1,
   ((deleteProfile_no_cascade (fun raw stored => raw == stored)
      ⟨[⟨1, "Ana", "Diaz", 30, "ana@mail.com", "pw", none, none⟩],
       [{ id := 5, userId := 1, moviePexelsId := "m", description := "hey" }],
       [{ userId := 1, moviePexelsId := "m", value := 4 }],
       [{ id := 2, pexelsId := "px", title := "T", videoUrl := "v",
          miniatureUrl := "mi", userId := 1 }]⟩ 1 "pw"
      ⟨1, "Ana", "Diaz", 30, "ana@mail.com", "pw", none, none⟩).2.2.2
      (by decide) rfl (by decide)).1,
   ((deleteProfile_no_cascade (fun raw stored => raw == stored)
      ⟨[⟨1, "Ana", "Diaz", 30, "ana@mail.com", "pw", none, none⟩],
       [{ id := 5, userId := 1, moviePexelsId := "m", description := "hey" }],
       [{ userId := 1, moviePexelsId := "m", value := 4 }],
       [{ id := 2, pexelsId := "px", title := "T", videoUrl := "v",
          miniatureUrl := "mi", userId := 1 }]⟩ 1 "pw"
      ⟨1, "Ana", "Diaz", 30, "ana@mail.com", "pw", none, none⟩).2.2.2
      (by decide) rfl (by decide)).2⟩
